import Mathlib

/-
Formal model of the mock document-processing HTTP service implemented in
api/main.py (Flask).  The service exposes five endpoints (service info,
health, process, list documents, get document) over a process-wide
configuration and a flat file-based storage directory.  Each Python handler
is translated into an executable Lean function over an explicit storage
state; request-dependent nondeterminism (the generated UUID, timestamps,
filesystem metadata) is passed in as parameters.
-/

set_option maxHeartbeats 1000000

/-- JSON values.  Decimal literals appearing in the Python source are
represented exactly as a mantissa together with a power-of-ten exponent:
the value of the num constructor is mantissa divided by ten to the
exponent.  Arrays and objects are represented as built-in cons chains so
that the type is a plain (non-nested) inductive with decidable equality. -/
inductive Json where
  | null : Json
  | bool (b : Bool) : Json
  | str (s : String) : Json
  | num (mantissa : Int) (exponent : Nat) : Json
  | arrNil : Json
  | arrCons (head : Json) (tail : Json) : Json
  | objNil : Json
  | objCons (key : String) (value : Json) (rest : Json) : Json
deriving DecidableEq, Repr

/-- Embed a natural number as a JSON integer. -/
def Json.ofNat (n : Nat) : Json :=
  Json.num (Int.ofNat n) 0

/-- Build a JSON array from a list of values. -/
def Json.mkArr : List Json → Json
  | [] => Json.arrNil
  | x :: xs => Json.arrCons x (Json.mkArr xs)

/-- Build a JSON object from an ordered list of key-value pairs (Python
dict literals preserve insertion order, and so does this encoding). -/
def Json.mkObj : List (String × Json) → Json
  | [] => Json.objNil
  | (k, v) :: fs => Json.objCons k v (Json.mkObj fs)

/-- First value bound to a key in a JSON object (none on non-objects and
missing keys), mirroring Python dict lookup on the decoded JSON. -/
def Json.getField : Json → String → Option Json
  | Json.objCons k v rest, key => if k = key then some v else Json.getField rest key
  | _, _ => none

/-- Append a key-value pair at the end of a JSON object, mirroring Python
dict assignment of a fresh key (insertion order puts it last). -/
def Json.addField : Json → String → Json → Json
  | Json.objNil, k, v => Json.objCons k v Json.objNil
  | Json.objCons k0 v0 rest, k, v => Json.objCons k0 v0 (Json.addField rest k v)
  | j, _, _ => j

/-- Remove every binding of a key from a JSON object. -/
def Json.removeField : Json → String → Json
  | Json.objCons k v rest, key =>
    if k = key then Json.removeField rest key
    else Json.objCons k v (Json.removeField rest key)
  | j, _ => j

/-- Number of elements of a JSON array (zero on non-arrays). -/
def Json.arrLength : Json → Nat
  | Json.arrCons _ tail => Json.arrLength tail + 1
  | _ => 0

/-- Boolean membership of a value in a JSON array. -/
def Json.arrMemB (x : Json) : Json → Bool
  | Json.arrCons y tail => x == y || Json.arrMemB x tail
  | _ => false

/-- Whitespace set of the Python string methods used by the service
(str.split with no argument, str.strip): the characters for which
str.isspace is true. -/
def pyIsSpace (c : Char) : Bool :=
  let n := c.val.toNat
  (9 ≤ n && n ≤ 13) || n == 32 || (28 ≤ n && n ≤ 31) || n == 0x85 ||
    n == 0xA0 || n == 0x1680 || (0x2000 ≤ n && n ≤ 0x200A) ||
    n == 0x2028 || n == 0x2029 || n == 0x202F || n == 0x205F || n == 0x3000

/-- Split a character list at every separator character, keeping (possibly
empty) chunks between separators. -/
def splitChars (p : Char → Bool) : List Char → List (List Char)
  | [] => [[]]
  | c :: cs =>
    match splitChars p cs with
    | [] => [[]]
    | t :: ts => if p c then [] :: t :: ts else (c :: t) :: ts

/-- Python str.split with no argument: split on runs of whitespace and drop
empty tokens; pyWordCount is the length of the resulting token list, which
is what len(content.split()) computes in process_document. -/
def pyWordCount (s : String) : Nat :=
  ((splitChars pyIsSpace s.data).filter (fun t => !t.isEmpty)).length

/-- Number of bytes of the UTF-8 encoding of one character. -/
def charUtf8Size (c : Char) : Nat :=
  if c.val.toNat < 0x80 then 1
  else if c.val.toNat < 0x800 then 2
  else if c.val.toNat < 0x10000 then 3
  else 4

/-- Byte length of the UTF-8 encoding of a string:
len(content.encode("utf-8")) in the Python source. -/
def utf8Len (s : String) : Nat :=
  s.data.foldr (fun c n => charUtf8Size c + n) 0

/-- Python str.strip with no argument: remove leading and trailing
whitespace characters. -/
def pyStrip (s : String) : String :=
  ⟨((s.data.dropWhile pyIsSpace).reverse.dropWhile pyIsSpace).reverse⟩

/-- Replace every occurrence of a nonempty pattern, leftmost first and
without overlap; fuel bounds the recursion and is instantiated with the
length of the scanned list, which always suffices since every step consumes
at least one character. -/
def replaceAllFuel (pat rep : List Char) : Nat → List Char → List Char
  | 0, l => l
  | _ + 1, [] => []
  | fuel + 1, c :: cs =>
    if pat.isPrefixOf (c :: cs) then
      rep ++ replaceAllFuel pat rep fuel (cs.drop (pat.length - 1))
    else
      c :: replaceAllFuel pat rep fuel cs

/-- Python str.replace: replace all occurrences of the pattern (the source
uses it in list_documents to derive a document id from a filename). -/
def pyReplace (s pat rep : String) : String :=
  if pat.data.isEmpty then s
  else ⟨replaceAllFuel pat.data rep.data s.data.length s.data⟩

/-- Python str.endswith for the suffix test in list_documents. -/
def pyEndsWith (s suffix : String) : Bool :=
  suffix.data.isSuffixOf s.data

/-- Continuation byte test for the UTF-8 decoder. -/
def isCont (b : Nat) : Bool :=
  0x80 ≤ b && b ≤ 0xBF

/-- Allowed second byte of a three-byte UTF-8 sequence, by lead byte
(excludes overlong encodings and surrogates, as the Python codec does). -/
def cont1OK3 (lead b1 : Nat) : Bool :=
  if lead == 0xE0 then 0xA0 ≤ b1 && b1 ≤ 0xBF
  else if lead == 0xED then 0x80 ≤ b1 && b1 ≤ 0x9F
  else isCont b1

/-- Allowed second byte of a four-byte UTF-8 sequence, by lead byte
(excludes overlong encodings and code points beyond U+10FFFF). -/
def cont1OK4 (lead b1 : Nat) : Bool :=
  if lead == 0xF0 then 0x90 ≤ b1 && b1 ≤ 0xBF
  else if lead == 0xF4 then 0x80 ≤ b1 && b1 ≤ 0x8F
  else isCont b1

/-- UTF-8 decoder dropping invalid sequences, as Python
bytes.decode("utf-8", errors="ignore") does: a valid sequence yields its
code point, an invalid or truncated one is skipped (the maximal valid
prefix of a sequence is consumed before resuming).  Fuel bounds the
recursion and is instantiated with the byte count, which always suffices
since every step consumes at least one byte. -/
def utf8DecodeIgnoreAux : Nat → List Nat → List Char
  | 0, _ => []
  | _ + 1, [] => []
  | fuel + 1, b :: rest =>
    if b < 0x80 then Char.ofNat b :: utf8DecodeIgnoreAux fuel rest
    else if 0xC2 ≤ b && b ≤ 0xDF then
      match rest with
      | [] => []
      | b1 :: rest2 =>
        if isCont b1 then
          Char.ofNat ((b - 0xC0) * 64 + (b1 - 0x80)) :: utf8DecodeIgnoreAux fuel rest2
        else utf8DecodeIgnoreAux fuel rest
    else if 0xE0 ≤ b && b ≤ 0xEF then
      match rest with
      | [] => []
      | b1 :: rest2 =>
        if cont1OK3 b b1 then
          match rest2 with
          | [] => []
          | b2 :: rest3 =>
            if isCont b2 then
              Char.ofNat ((b - 0xE0) * 4096 + (b1 - 0x80) * 64 + (b2 - 0x80)) ::
                utf8DecodeIgnoreAux fuel rest3
            else utf8DecodeIgnoreAux fuel rest2
        else utf8DecodeIgnoreAux fuel rest
    else if 0xF0 ≤ b && b ≤ 0xF4 then
      match rest with
      | [] => []
      | b1 :: rest2 =>
        if cont1OK4 b b1 then
          match rest2 with
          | [] => []
          | b2 :: rest3 =>
            if isCont b2 then
              match rest3 with
              | [] => []
              | b3 :: rest4 =>
                if isCont b3 then
                  Char.ofNat ((b - 0xF0) * 262144 + (b1 - 0x80) * 4096 +
                      (b2 - 0x80) * 64 + (b3 - 0x80)) ::
                    utf8DecodeIgnoreAux fuel rest4
                else utf8DecodeIgnoreAux fuel rest3
            else utf8DecodeIgnoreAux fuel rest2
        else utf8DecodeIgnoreAux fuel rest
    else utf8DecodeIgnoreAux fuel rest

/-- Python bytes.decode("utf-8", errors="ignore"). -/
def utf8DecodeIgnore (bytes : List Nat) : String :=
  ⟨utf8DecodeIgnoreAux bytes.length bytes⟩


/-- Process-wide configuration, loaded once from the environment in the
Python module header (lines 14-23 of main.py).  The embeddings key is
os.getenv with no default, hence an optional string. -/
structure Config where
  environment : String
  logLevel : String
  modelName : String
  embeddingsApiKey : Option String
  maxDocumentSizeMB : Nat
  processingTimeoutSeconds : Nat
  storagePath : String
deriving DecidableEq, Repr

/-- bool(EMBEDDINGS_API_KEY and EMBEDDINGS_API_KEY.strip()): false when the
key is unset or empty, otherwise true exactly when stripping whitespace
leaves a nonempty string. -/
def embeddingsKeyConfigured : Option String → Bool
  | none => false
  | some s => !s.data.isEmpty && !(pyStrip s).data.isEmpty

/-- Predicate written the way the spec words it: the key is present and
non-empty after trimming whitespace. -/
def keyNonEmptyAfterTrim : Option String → Bool
  | none => false
  | some s => !(pyStrip s).data.isEmpty

/-- One uploaded file of a multipart request: its client-supplied filename
and raw bytes. -/
structure FilePart where
  filename : String
  bytes : List Nat
deriving DecidableEq, Repr

/-- The aspects of an incoming POST /process request the handler inspects:
whether the content type is JSON, the result of parsing the body as JSON
(none models a parse failure, where get_json(silent=True) yields None),
the multipart file fields, and the raw body bytes. -/
structure HttpRequest where
  isJson : Bool
  jsonParsed : Option Json
  files : List (String × FilePart)
  rawBody : List Nat
deriving DecidableEq, Repr

/-- Contents of one stored file: either JSON that reads and parses
cleanly, or a file whose read or parse raises with the given message. -/
inductive FileData where
  | good (content : Json) : FileData
  | bad (msg : String) : FileData
deriving DecidableEq, Repr

/-- A directory entry together with the filesystem metadata os.stat
reports for it. -/
structure FileEntry where
  data : FileData
  sizeBytes : Nat
  createdAt : String
deriving DecidableEq, Repr

/-- State of the storage directory.  available models whether
os.makedirs(STORAGE_PATH, exist_ok=True) succeeds; writeFails (resp.
listFails) being some msg models any file write (resp. os.listdir)
raising with message msg. -/
structure Storage where
  available : Bool
  files : List (String × FileEntry)
  writeFails : Option String
  listFails : Option String
deriving DecidableEq, Repr

/-- An HTTP response: status code and JSON body. -/
structure HttpResponse where
  status : Nat
  body : Json
deriving DecidableEq, Repr

/-- First binding of a key in an association list (werkzeug MultiDict.get
returns the first value for a key). -/
def alistLookup {α : Type} : List (String × α) → String → Option α
  | [], _ => none
  | (k, v) :: rest, key => if k = key then some v else alistLookup rest key

/-- Python truthiness of a decoded JSON value (None, False, zero, empty
string, empty list and empty dict are falsy). -/
def jsonTruthy : Json → Bool
  | Json.null => false
  | Json.bool b => b
  | Json.str s => !s.data.isEmpty
  | Json.num m _ => m != 0
  | Json.arrNil => false
  | Json.arrCons _ _ => true
  | Json.objNil => false
  | Json.objCons _ _ _ => true

/-- Outcome of the input-resolution phase of process_document (lines
89-101): the resolved content and filename, the missing-file error, or an
unhandled Python exception (outside the modelled behavior, e.g. a JSON
body whose content field is not a string). -/
inductive Resolution where
  | ok (content : String) (filename : Json) : Resolution
  | noFile : Resolution
  | crash : Resolution
deriving DecidableEq, Repr

/-- Input resolution of process_document, in the priority order of the
source: JSON body, then multipart files, then raw body.  In the JSON
branch, get_json(silent=True) or \x7b\x7d replaces a parse failure or a
falsy parse result by the empty dict, and dict lookups default content to
the empty string and filename to document.txt; a missing multipart field
named file (or one whose FileStorage is falsy, i.e. has an empty
filename) yields the 400 error; the raw branch decodes the body
leniently and substitutes a sample text when empty. -/
def resolveContent (req : HttpRequest) : Resolution :=
  if req.isJson then
    let dataOpt : Option Json :=
      match req.jsonParsed with
      | none => some Json.objNil
      | some j =>
        if jsonTruthy j then
          match j with
          | Json.objCons k v rest => some (Json.objCons k v rest)
          | _ => none
        else some Json.objNil
    match dataOpt with
    | none => Resolution.crash
    | some data =>
      let contentOpt : Option String :=
        match data.getField ("content") with
        | none => some ("")
        | some (Json.str s) => some s
        | some _ => none
      match contentOpt with
      | none => Resolution.crash
      | some content =>
        Resolution.ok content ((data.getField ("filename")).getD (Json.str ("document.txt")))
  else if !req.files.isEmpty then
    match alistLookup req.files ("file") with
    | none => Resolution.noFile
    | some part =>
      if part.filename.data.isEmpty then Resolution.noFile
      else Resolution.ok (utf8DecodeIgnore part.bytes) (Json.str part.filename)
  else
    let decoded := utf8DecodeIgnore req.rawBody
    Resolution.ok (if decoded.data.isEmpty then ("Sample document") else decoded)
      (Json.str ("document.txt"))

/-- The fixed entities list of the mock analysis (lines 116-120). -/
def mockEntities : Json :=
  Json.mkArr [
    Json.mkObj [(("text"), Json.str ("Azure")), (("type"), Json.str ("Technology")),
      (("confidence"), Json.num 95 2)],
    Json.mkObj [(("text"), Json.str ("Container Apps")), (("type"), Json.str ("Service")),
      (("confidence"), Json.num 93 2)],
    Json.mkObj [(("text"), Json.str ("document")), (("type"), Json.str ("Concept")),
      (("confidence"), Json.num 87 2)]]

/-- The fixed key-phrase list of the mock analysis (lines 122-127). -/
def mockKeyPhrases : Json :=
  Json.mkArr [Json.str ("document processing"), Json.str ("container deployment"),
    Json.str ("secrets and configuration"), Json.str ("revision management")]

/-- The fixed sentiment object of the mock analysis (lines 129-133). -/
def mockSentiment : Json :=
  Json.mkObj [(("overall"), Json.str ("neutral")), (("confidence"), Json.num 78 2),
    (("scores"), Json.mkObj [(("positive"), Json.num 22 2), (("neutral"), Json.num 68 2),
      (("negative"), Json.num 10 2)])]

/-- The result dict built by process_document (lines 135-156), before the
storage outcome is attached. -/
def mkResult (cfg : Config) (content : String) (filename : Json)
    (docId timestamp : String) : Json :=
  Json.mkObj [
    (("document_id"), Json.str docId),
    (("filename"), filename),
    (("processed_at"), Json.str timestamp),
    (("environment"), Json.str cfg.environment),
    (("model"), Json.mkObj [(("name"), Json.str cfg.modelName)]),
    (("secrets"), Json.mkObj [(("embeddings_api_key_configured"),
      Json.bool (embeddingsKeyConfigured cfg.embeddingsApiKey))]),
    (("statistics"), Json.mkObj [
      (("character_count"), Json.ofNat content.data.length),
      (("word_count"), Json.ofNat (pyWordCount content)),
      (("size_bytes"), Json.ofNat (utf8Len content))]),
    (("analysis"), Json.mkObj [(("entities"), mockEntities),
      (("key_phrases"), mockKeyPhrases), (("sentiment"), mockSentiment)]),
    (("processing_config"), Json.mkObj [
      (("timeout_seconds"), Json.ofNat cfg.processingTimeoutSeconds),
      (("max_size_mb"), Json.ofNat cfg.maxDocumentSizeMB)])]

/-- POST /process (process_document, lines 73-172).  The generated UUID
and timestamp, and the size and creation time the filesystem will report
for a newly written file, are passed in as parameters; the result is the
response paired with the storage state after the request, or none when
the handler raises outside the modelled behavior.  The size check
compares the UTF-8 byte count against the configured limit in megabytes
(the Python float division by 1024*1024 is exact here, so the comparison
equals the integer comparison used below).  Note the record is serialized
to disk before the storage outcome is attached to the response. -/
def processDocument (cfg : Config) (st : Storage) (req : HttpRequest)
    (docId timestamp : String) (newSize : Nat) (newCtime : String) :
    Option (HttpResponse × Storage) :=
  match resolveContent req with
  | Resolution.crash => none
  | Resolution.noFile =>
    some (⟨400, Json.mkObj [(("error"), Json.str ("No file provided"))]⟩, st)
  | Resolution.ok content filename =>
    if utf8Len content > cfg.maxDocumentSizeMB * 1048576 then
      some (⟨413, Json.mkObj [(("error"),
        Json.str (("Document exceeds maximum size of ") ++ toString cfg.maxDocumentSizeMB ++ (" MB")))]⟩, st)
    else
      let record := mkResult cfg content filename docId timestamp
      if st.available then
        match st.writeFails with
        | some msg =>
          some (⟨200, record.addField ("storage")
            (Json.mkObj [(("saved"), Json.bool false), (("error"), Json.str msg)])⟩, st)
        | none =>
          some (⟨200, record.addField ("storage")
            (Json.mkObj [(("saved"), Json.bool true),
              (("path"), Json.str (cfg.storagePath ++ ("/") ++ docId ++ (".json")))])⟩,
            { st with files := (docId ++ (".json"),
                ⟨FileData.good record, newSize, newCtime⟩) :: st.files })
      else
        some (⟨200, record.addField ("storage")
          (Json.mkObj [(("saved"), Json.bool false),
            (("reason"), Json.str ("Storage not available"))])⟩, st)

/-- One summary entry of the document listing (lines 189-195): the
document id is derived from the filename with str.replace. -/
def listEntry (name : String) (e : FileEntry) : Json :=
  Json.mkObj [(("document_id"), Json.str (pyReplace name (".json") (""))),
    (("size_bytes"), Json.ofNat e.sizeBytes),
    (("created_at"), Json.str e.createdAt)]

/-- GET /documents (list_documents, lines 175-199). -/
def listDocuments (st : Storage) : HttpResponse :=
  if !st.available then
    ⟨200, Json.mkObj [(("documents"), Json.arrNil),
      (("error"), Json.str ("Storage not available"))]⟩
  else
    match st.listFails with
    | some msg => ⟨200, Json.mkObj [(("documents"), Json.arrNil), (("error"), Json.str msg)]⟩
    | none =>
      let entries := (st.files.filter (fun p => pyEndsWith p.1 (".json"))).map
        (fun p => listEntry p.1 p.2)
      ⟨200, Json.mkObj [(("documents"), Json.mkArr entries),
        (("count"), Json.ofNat entries.length)]⟩

/-- GET /documents/;id; (get_document, lines 202-216): look up the file
named id.json in the storage directory. -/
def getDocument (st : Storage) (docId : String) : HttpResponse :=
  match alistLookup st.files (docId ++ (".json")) with
  | none => ⟨404, Json.mkObj [(("error"), Json.str ("Document not found"))]⟩
  | some e =>
    match e.data with
    | FileData.good j => ⟨200, j⟩
    | FileData.bad msg => ⟨500, Json.mkObj [(("error"), Json.str msg)]⟩

/-- GET / (root, lines 45-64): service and configuration snapshot. -/
def rootInfo (cfg : Config) : HttpResponse :=
  ⟨200, Json.mkObj [
    (("service"), Json.str ("AI Document Processing API")),
    (("status"), Json.str ("running")),
    (("version"), Json.str ("1.0.0")),
    (("environment"), Json.str cfg.environment),
    (("model"), Json.mkObj [(("name"), Json.str cfg.modelName)]),
    (("secrets"), Json.mkObj [(("embeddings_api_key_configured"),
      Json.bool (embeddingsKeyConfigured cfg.embeddingsApiKey))]),
    (("config"), Json.mkObj [
      (("max_document_size_mb"), Json.ofNat cfg.maxDocumentSizeMB),
      (("processing_timeout_seconds"), Json.ofNat cfg.processingTimeoutSeconds),
      (("log_level"), Json.str cfg.logLevel),
      (("storage_path"), Json.str cfg.storagePath)])]⟩

/-- GET /health (health, lines 67-70). -/
def healthCheck : HttpResponse :=
  ⟨200, Json.mkObj [(("status"), Json.str ("healthy"))]⟩

/-- Saved flag of the storage outcome embedded in a response body. -/
def storageSaved (body : Json) : Option Bool :=
  match body.getField ("storage") with
  | some s =>
    match s.getField ("saved") with
    | some (Json.bool b) => some b
    | _ => none
  | none => none

/-- A configuration with every environment variable left at its default. -/
def cfg0 : Config :=
  ⟨("development"), ("INFO"), ("not-configured"), none, 10, 15, ("/tmp/processed")⟩

/-- An empty, fully working storage directory. -/
def st0 : Storage :=
  ⟨true, [], none, none⟩

/-- A plain POST /process request: not JSON, no uploads, empty raw body. -/
def rawReq0 : HttpRequest :=
  ⟨false, none, [], []⟩

/-- A fixed timestamp used by the concrete scenarios below. -/
def ts0 : String :=
  "2024-01-01T00:00:00Z"

/-- The record built for rawReq0 under cfg0 (content defaults to the
sample text). -/
def c1record : Json :=
  mkResult cfg0 ("Sample document") (Json.str ("document.txt")) ("d1") ts0

/-- The corresponding /process response body, with the storage outcome
attached after the record was written. -/
def c1resp : Json :=
  c1record.addField ("storage")
    (Json.mkObj [(("saved"), Json.bool true), (("path"), Json.str ("/tmp/processed/d1.json"))])

/-- The storage state after that request. -/
def c1st1 : Storage :=
  ⟨true, [(("d1.json"), ⟨FileData.good c1record, 100, ts0⟩)], none, none⟩

/-- A storage directory holding one file whose name contains the .json
suffix twice. -/
def c3st : Storage :=
  ⟨true, [(("a.json.json"), ⟨FileData.good Json.null, 5, ("t1")⟩)], none, none⟩

example : pyWordCount ("hello world") = 2 := by decide
example : pyWordCount ("  a \t b  ") = 2 := by decide
example : pyWordCount ("") = 0 := by decide
example : utf8Len ("héllo") = 6 := by decide
example : pyStrip ("  x ") = "x" := by decide
example : pyReplace ("a.json.json") (".json") ("") = "a" := by decide
example : pyEndsWith ("a.json") (".json") = true := by decide
example : utf8DecodeIgnore [0x61, 0x62] = "ab" := by decide
example : utf8DecodeIgnore [0xFF, 0x61] = "a" := by decide
example : utf8DecodeIgnore [0xC3, 0xA9] = "é" := by decide
example : utf8DecodeIgnore [0xE2, 0x82, 0xAC] = "€" := by decide
example : utf8DecodeIgnore [0xC3] = "" := by decide

/-- Membership in an array built by mkArr is list membership. -/
theorem arrMemB_mkArr (x : Json) (l : List Json) :
    Json.arrMemB x (Json.mkArr l) = true ↔ x ∈ l := by
  induction l with
  | nil => simp [Json.mkArr, Json.arrMemB]
  | cons y ys ih => simp [Json.mkArr, Json.arrMemB, ih, beq_iff_eq]

/-- The configured flag computed by the source equals the predicate the
spec words state: present and non-empty after trimming whitespace. -/
theorem embeddingsKeyConfigured_eq_trim (k : Option String) :
    embeddingsKeyConfigured k = keyNonEmptyAfterTrim k := by
  cases k with
  | none => rfl
  | some s =>
    obtain ⟨l⟩ := s
    cases l with
    | nil => rfl
    | cons c cs => simp [embeddingsKeyConfigured, keyNonEmptyAfterTrim, List.isEmpty]

/-- C2: a POST /process request that carries a file upload but no file
field named file is answered with HTTP 400 and body error No file
provided, leaving storage unchanged. -/
theorem c2_missing_file_400 (cfg : Config) (st : Storage) (req : HttpRequest)
    (docId ts : String) (sz : Nat) (ct : String)
    (hjson : req.isJson = false) (hfiles : req.files ≠ [])
    (hnofile : alistLookup req.files ("file") = none) :
    processDocument cfg st req docId ts sz ct =
      some (⟨400, Json.mkObj [(("error"), Json.str ("No file provided"))]⟩, st) := by
  have hres : resolveContent req = Resolution.noFile := by
    unfold resolveContent
    rw [hjson]
    cases hf : req.files with
    | nil => exact absurd hf hfiles
    | cons a l =>
      rw [hf] at hnofile
      simp [hnofile]
  unfold processDocument
  rw [hres]

/-- C2 witness: a multipart request whose only upload is named upload. -/
theorem c2_missing_file_400_witness :
    processDocument cfg0 st0 ⟨false, none, [(("upload"), ⟨("u.txt"), [0x61]⟩)], []⟩
        ("d2") ts0 0 ts0 =
      some (⟨400, Json.mkObj [(("error"), Json.str ("No file provided"))]⟩, st0) :=
  c2_missing_file_400 cfg0 st0 ⟨false, none, [(("upload"), ⟨("u.txt"), [0x61]⟩)], []⟩
    ("d2") ts0 0 ts0 (by decide) (by decide) (by decide)

/-- C4: when the resolved content exceeds the configured size limit,
/process answers HTTP 413 with the formatted error body and leaves the
storage state unchanged (no file is created). -/
theorem c4_too_large_413 (cfg : Config) (st : Storage) (req : HttpRequest)
    (docId ts : String) (sz : Nat) (ct : String) (content : String) (filename : Json)
    (hres : resolveContent req = Resolution.ok content filename)
    (hbig : utf8Len content > cfg.maxDocumentSizeMB * 1048576) :
    processDocument cfg st req docId ts sz ct =
      some (⟨413, Json.mkObj [(("error"),
        Json.str (("Document exceeds maximum size of ") ++ toString cfg.maxDocumentSizeMB ++ (" MB")))]⟩,
        st) := by
  unfold processDocument
  rw [hres]
  simp [hbig]

/-- C4 witness: with the size limit set to zero megabytes, a one-byte
document is rejected and storage is untouched. -/
theorem c4_too_large_413_witness :
    processDocument ⟨("development"), ("INFO"), ("not-configured"), none, 0, 15, ("/tmp/processed")⟩
        st0 ⟨false, none, [], [0x61]⟩ ("d3") ts0 0 ts0 =
      some (⟨413, Json.mkObj [(("error"),
        Json.str (("Document exceeds maximum size of ") ++ toString (0 : Nat) ++ (" MB")))]⟩,
        st0) :=
  c4_too_large_413 ⟨("development"), ("INFO"), ("not-configured"), none, 0, 15, ("/tmp/processed")⟩
    st0 ⟨false, none, [], [0x61]⟩ ("d3") ts0 0 ts0 ("a") (Json.str ("document.txt"))
    (by decide) (by decide)

/-- C5: every /process response for content under the size limit reports
statistics whose character count is the number of characters of the
content, whose word count is the number of whitespace-delimited tokens,
and whose byte size is the UTF-8 byte length. -/
theorem c5_statistics (cfg : Config) (st : Storage) (req : HttpRequest)
    (docId ts : String) (sz : Nat) (ct : String) (content : String) (filename : Json)
    (r : HttpResponse) (st1 : Storage)
    (hres : resolveContent req = Resolution.ok content filename)
    (hsize : utf8Len content ≤ cfg.maxDocumentSizeMB * 1048576)
    (hp : processDocument cfg st req docId ts sz ct = some (r, st1)) :
    r.status = 200 ∧
    r.body.getField ("statistics") = some (Json.mkObj [
      (("character_count"), Json.ofNat content.data.length),
      (("word_count"), Json.ofNat (pyWordCount content)),
      (("size_bytes"), Json.ofNat (utf8Len content))]) := by
  have hlt : ¬ utf8Len content > cfg.maxDocumentSizeMB * 1048576 := by omega
  unfold processDocument at hp
  rw [hres] at hp
  cases hav : st.available with
  | false =>
    simp [hav, hlt] at hp
    obtain ⟨h1, h2⟩ := hp
    subst h1
    exact ⟨rfl, rfl⟩
  | true =>
    cases hwf : st.writeFails with
    | none =>
      simp [hav, hwf, hlt] at hp
      obtain ⟨h1, h2⟩ := hp
      subst h1
      exact ⟨rfl, rfl⟩
    | some msg =>
      simp [hav, hwf, hlt] at hp
      obtain ⟨h1, h2⟩ := hp
      subst h1
      exact ⟨rfl, rfl⟩

/-- C5 witness: the spec scenario, content hello world. -/
theorem c5_statistics_witness :
    (HttpResponse.mk 200 c1resp).status = 200 ∧
    (HttpResponse.mk 200 c1resp).body.getField ("statistics") = some (Json.mkObj [
      (("character_count"), Json.ofNat ("Sample document").data.length),
      (("word_count"), Json.ofNat (pyWordCount ("Sample document"))),
      (("size_bytes"), Json.ofNat (utf8Len ("Sample document")))]) :=
  c5_statistics cfg0 st0 rawReq0 ("d1") ts0 100 ts0 ("Sample document")
    (Json.str ("document.txt")) ⟨200, c1resp⟩ c1st1
    (by decide) (by decide) (by decide)

/-- C10: a request with a JSON content type whose body fails to parse is
not an error: it is processed with empty content and default filename,
yielding a 200 response with zero character and word counts. -/
theorem c10_bad_json_processed_empty (cfg : Config) (st : Storage) (req : HttpRequest)
    (docId ts : String) (sz : Nat) (ct : String) (r : HttpResponse) (st1 : Storage)
    (hjson : req.isJson = true) (hparse : req.jsonParsed = none)
    (hp : processDocument cfg st req docId ts sz ct = some (r, st1)) :
    r.status = 200 ∧
    r.body.getField ("filename") = some (Json.str ("document.txt")) ∧
    r.body.getField ("statistics") = some (Json.mkObj [
      (("character_count"), Json.ofNat 0),
      (("word_count"), Json.ofNat 0),
      (("size_bytes"), Json.ofNat 0)]) := by
  have hres : resolveContent req = Resolution.ok ("") (Json.str ("document.txt")) := by
    unfold resolveContent
    rw [hjson, hparse]
    rfl
  have hlt : ¬ utf8Len ("") > cfg.maxDocumentSizeMB * 1048576 := by
    have h0 : utf8Len ("") = 0 := rfl
    omega
  unfold processDocument at hp
  rw [hres] at hp
  cases hav : st.available with
  | false =>
    simp [hav, hlt] at hp
    obtain ⟨h1, h2⟩ := hp
    subst h1
    exact ⟨rfl, rfl, rfl⟩
  | true =>
    cases hwf : st.writeFails with
    | none =>
      simp [hav, hwf, hlt] at hp
      obtain ⟨h1, h2⟩ := hp
      subst h1
      exact ⟨rfl, rfl, rfl⟩
    | some msg =>
      simp [hav, hwf, hlt] at hp
      obtain ⟨h1, h2⟩ := hp
      subst h1
      exact ⟨rfl, rfl, rfl⟩

/-- C10 witness: a JSON request whose body fails to parse, on working
storage. -/
theorem c10_bad_json_processed_empty_witness :
    (HttpResponse.mk 200
        ((mkResult cfg0 ("") (Json.str ("document.txt")) ("d4") ts0).addField ("storage")
          (Json.mkObj [(("saved"), Json.bool true),
            (("path"), Json.str ("/tmp/processed/d4.json"))]))).status = 200 ∧
    (HttpResponse.mk 200
        ((mkResult cfg0 ("") (Json.str ("document.txt")) ("d4") ts0).addField ("storage")
          (Json.mkObj [(("saved"), Json.bool true),
            (("path"), Json.str ("/tmp/processed/d4.json"))]))).body.getField ("filename") =
      some (Json.str ("document.txt")) ∧
    (HttpResponse.mk 200
        ((mkResult cfg0 ("") (Json.str ("document.txt")) ("d4") ts0).addField ("storage")
          (Json.mkObj [(("saved"), Json.bool true),
            (("path"), Json.str ("/tmp/processed/d4.json"))]))).body.getField ("statistics") =
      some (Json.mkObj [
        (("character_count"), Json.ofNat 0),
        (("word_count"), Json.ofNat 0),
        (("size_bytes"), Json.ofNat 0)]) :=
  c10_bad_json_processed_empty cfg0 st0 ⟨true, none, [], [0x7B]⟩ ("d4") ts0 42 ts0
    ⟨200, (mkResult cfg0 ("") (Json.str ("document.txt")) ("d4") ts0).addField ("storage")
      (Json.mkObj [(("saved"), Json.bool true), (("path"), Json.str ("/tmp/processed/d4.json"))])⟩
    ⟨true, [(("d4.json"), ⟨FileData.good (mkResult cfg0 ("") (Json.str ("document.txt")) ("d4") ts0), 42, ts0⟩)], none, none⟩
    (by decide) (by decide) (by decide)

/-- C6: storage unavailability or write and listing failures never
produce an HTTP error status: /process still answers 200 with the full
record and an embedded storage outcome (reason Storage not available when
the directory is unavailable, the write-error message on write failure),
and /documents answers 200 with an empty list and an error field. -/
theorem c6_storage_failures_degrade (cfg : Config) (st : Storage) (req : HttpRequest)
    (docId ts : String) (sz : Nat) (ct : String) (msg : String)
    (content : String) (filename : Json)
    (hres : resolveContent req = Resolution.ok content filename)
    (hsize : utf8Len content ≤ cfg.maxDocumentSizeMB * 1048576) :
    (processDocument cfg { st with available := false } req docId ts sz ct =
      some (⟨200, (mkResult cfg content filename docId ts).addField ("storage")
        (Json.mkObj [(("saved"), Json.bool false),
          (("reason"), Json.str ("Storage not available"))])⟩,
        { st with available := false })) ∧
    (processDocument cfg { st with available := true, writeFails := some msg } req docId ts sz ct =
      some (⟨200, (mkResult cfg content filename docId ts).addField ("storage")
        (Json.mkObj [(("saved"), Json.bool false), (("error"), Json.str msg)])⟩,
        { st with available := true, writeFails := some msg })) ∧
    (listDocuments { st with available := false } =
      ⟨200, Json.mkObj [(("documents"), Json.arrNil),
        (("error"), Json.str ("Storage not available"))]⟩) ∧
    (listDocuments { st with available := true, listFails := some msg } =
      ⟨200, Json.mkObj [(("documents"), Json.arrNil), (("error"), Json.str msg)]⟩) := by
  have hlt : ¬ utf8Len content > cfg.maxDocumentSizeMB * 1048576 := by omega
  refine ⟨?_, ?_, ?_, ?_⟩
  · unfold processDocument
    rw [hres]
    simp [hlt]
  · unfold processDocument
    rw [hres]
    simp [hlt]
  · unfold listDocuments
    simp
  · unfold listDocuments
    simp

/-- C6 witness: the plain raw request against an unavailable directory, a
failing writer, and a failing lister. -/
theorem c6_storage_failures_degrade_witness :
    (processDocument cfg0 { st0 with available := false } rawReq0 ("d5") ts0 0 ts0 =
      some (⟨200, (mkResult cfg0 ("Sample document") (Json.str ("document.txt")) ("d5") ts0).addField ("storage")
        (Json.mkObj [(("saved"), Json.bool false),
          (("reason"), Json.str ("Storage not available"))])⟩,
        { st0 with available := false })) ∧
    (processDocument cfg0 { st0 with available := true, writeFails := some ("disk full") } rawReq0 ("d5") ts0 0 ts0 =
      some (⟨200, (mkResult cfg0 ("Sample document") (Json.str ("document.txt")) ("d5") ts0).addField ("storage")
        (Json.mkObj [(("saved"), Json.bool false), (("error"), Json.str ("disk full"))])⟩,
        { st0 with available := true, writeFails := some ("disk full") })) ∧
    (listDocuments { st0 with available := false } =
      ⟨200, Json.mkObj [(("documents"), Json.arrNil),
        (("error"), Json.str ("Storage not available"))]⟩) ∧
    (listDocuments { st0 with available := true, listFails := some ("disk full") } =
      ⟨200, Json.mkObj [(("documents"), Json.arrNil), (("error"), Json.str ("disk full"))]⟩) :=
  c6_storage_failures_degrade cfg0 st0 rawReq0 ("d5") ts0 0 ts0 ("disk full")
    ("Sample document") (Json.str ("document.txt")) (by decide) (by decide)

/-- C7: /documents/id answers 404 with body error Document not found
exactly when the file id.json is absent from the storage directory; a
present file that reads and parses cleanly is returned verbatim with 200,
and a present file whose read or parse fails yields 500 with the error
message. -/
theorem c7_get_document_cases (st : Storage) (docId : String) :
    (alistLookup st.files (docId ++ (".json")) = none →
      getDocument st docId = ⟨404, Json.mkObj [(("error"), Json.str ("Document not found"))]⟩) ∧
    (getDocument st docId = ⟨404, Json.mkObj [(("error"), Json.str ("Document not found"))]⟩ →
      alistLookup st.files (docId ++ (".json")) = none) ∧
    (∀ (j : Json) (sz : Nat) (ct : String),
      alistLookup st.files (docId ++ (".json")) = some ⟨FileData.good j, sz, ct⟩ →
      getDocument st docId = ⟨200, j⟩) ∧
    (∀ (msg : String) (sz : Nat) (ct : String),
      alistLookup st.files (docId ++ (".json")) = some ⟨FileData.bad msg, sz, ct⟩ →
      getDocument st docId = ⟨500, Json.mkObj [(("error"), Json.str msg)]⟩) := by
  refine ⟨?_, ?_, ?_, ?_⟩
  · intro h
    unfold getDocument
    rw [h]
  · intro h
    cases hl : alistLookup st.files (docId ++ (".json")) with
    | none => rfl
    | some e =>
      obtain ⟨d, szb, ctb⟩ := e
      cases d with
      | good j => simp [getDocument, hl] at h
      | bad msg => simp [getDocument, hl] at h
  · intro j sz ct h
    unfold getDocument
    rw [h]
  · intro msg sz ct h
    unfold getDocument
    rw [h]

/-- C7 witness: a storage directory holding one clean and one corrupt
document, probed for a clean, a corrupt and a missing id. -/
theorem c7_get_document_cases_witness :
    getDocument ⟨true, [(("g.json"), ⟨FileData.good (Json.str ("v")), 3, ts0⟩),
        (("b.json"), ⟨FileData.bad ("boom"), 4, ts0⟩)], none, none⟩ ("missing") =
      ⟨404, Json.mkObj [(("error"), Json.str ("Document not found"))]⟩ ∧
    getDocument ⟨true, [(("g.json"), ⟨FileData.good (Json.str ("v")), 3, ts0⟩),
        (("b.json"), ⟨FileData.bad ("boom"), 4, ts0⟩)], none, none⟩ ("g") =
      ⟨200, Json.str ("v")⟩ ∧
    getDocument ⟨true, [(("g.json"), ⟨FileData.good (Json.str ("v")), 3, ts0⟩),
        (("b.json"), ⟨FileData.bad ("boom"), 4, ts0⟩)], none, none⟩ ("b") =
      ⟨500, Json.mkObj [(("error"), Json.str ("boom"))]⟩ := by
  refine ⟨?_, ?_, ?_⟩
  · exact (c7_get_document_cases ⟨true, [(("g.json"), ⟨FileData.good (Json.str ("v")), 3, ts0⟩),
      (("b.json"), ⟨FileData.bad ("boom"), 4, ts0⟩)], none, none⟩ ("missing")).1 (by decide)
  · exact (c7_get_document_cases ⟨true, [(("g.json"), ⟨FileData.good (Json.str ("v")), 3, ts0⟩),
      (("b.json"), ⟨FileData.bad ("boom"), 4, ts0⟩)], none, none⟩ ("g")).2.2.1
      (Json.str ("v")) 3 ts0 (by decide)
  · exact (c7_get_document_cases ⟨true, [(("g.json"), ⟨FileData.good (Json.str ("v")), 3, ts0⟩),
      (("b.json"), ⟨FileData.bad ("boom"), 4, ts0⟩)], none, none⟩ ("b")).2.2.2
      ("boom") 4 ts0 (by decide)

/-- C8: responses never depend on the embeddings API key beyond the
predicate non-empty after trimming whitespace: the configured flag equals
that predicate, and any two key values agreeing on it produce identical
responses on every endpoint (the listing, lookup and health endpoints do
not read the configuration at all). -/
theorem c8_key_noninterference (k1 k2 : Option String)
    (hagree : keyNonEmptyAfterTrim k1 = keyNonEmptyAfterTrim k2) :
    (∀ k : Option String, embeddingsKeyConfigured k = keyNonEmptyAfterTrim k) ∧
    (∀ cfg : Config,
      rootInfo { cfg with embeddingsApiKey := k1 } =
        rootInfo { cfg with embeddingsApiKey := k2 }) ∧
    (healthCheck = healthCheck) ∧
    (∀ (cfg : Config) (st : Storage) (req : HttpRequest) (docId ts : String)
        (sz : Nat) (ct : String),
      processDocument { cfg with embeddingsApiKey := k1 } st req docId ts sz ct =
        processDocument { cfg with embeddingsApiKey := k2 } st req docId ts sz ct) ∧
    (∀ st : Storage, listDocuments st = listDocuments st) ∧
    (∀ (st : Storage) (docId : String), getDocument st docId = getDocument st docId) := by
  have hflag : embeddingsKeyConfigured k1 = embeddingsKeyConfigured k2 := by
    rw [embeddingsKeyConfigured_eq_trim, embeddingsKeyConfigured_eq_trim, hagree]
  refine ⟨embeddingsKeyConfigured_eq_trim, ?_, rfl, ?_, fun st => rfl, fun st d => rfl⟩
  · intro cfg
    simp [rootInfo, hflag]
  · intro cfg st req docId ts sz ct
    unfold processDocument
    cases hres : resolveContent req <;> simp [mkResult, hflag]

/-- C8 witness: two distinct keys that are both non-empty after trimming
give identical service-info and process responses, and the flag matches
the trimming predicate on an all-whitespace key. -/
theorem c8_key_noninterference_witness :
    rootInfo { cfg0 with embeddingsApiKey := some ("a") } =
      rootInfo { cfg0 with embeddingsApiKey := some (" b ") } ∧
    processDocument { cfg0 with embeddingsApiKey := some ("a") } st0 rawReq0 ("d6") ts0 0 ts0 =
      processDocument { cfg0 with embeddingsApiKey := some (" b ") } st0 rawReq0 ("d6") ts0 0 ts0 ∧
    embeddingsKeyConfigured (some ("  ")) = keyNonEmptyAfterTrim (some ("  ")) :=
  ⟨(c8_key_noninterference (some ("a")) (some (" b ")) (by decide)).2.1 cfg0,
    (c8_key_noninterference (some ("a")) (some (" b ")) (by decide)).2.2.2.1
      cfg0 st0 rawReq0 ("d6") ts0 0 ts0,
    (c8_key_noninterference (some ("a")) (some (" b ")) (by decide)).1 (some ("  "))⟩

/-- C1 fails on the code: the record is serialized to disk before the
storage outcome is attached, so the persisted document (returned by the
lookup endpoint) lacks the storage field the /process response carries,
and the two JSON objects are not deep-equal.  Concretely, processing the
plain raw request saves successfully, yet the stored object differs from
the response body. -/
theorem c1_counterexample :
    processDocument cfg0 st0 rawReq0 ("d1") ts0 100 ts0 = some (⟨200, c1resp⟩, c1st1) ∧
    storageSaved c1resp = some true ∧
    getDocument c1st1 ("d1") = ⟨200, c1record⟩ ∧
    c1record ≠ c1resp := by
  refine ⟨by decide, by decide, by decide, by decide⟩

/-- C1 amended: for a document processed with storage saved true, the
lookup endpoint returns the /process response body with its storage field
removed (deep-equal on everything else). -/
theorem c1_roundtrip_without_storage_field (cfg : Config) (st : Storage) (req : HttpRequest)
    (docId ts : String) (sz : Nat) (ct : String) (r : HttpResponse) (st1 : Storage)
    (hp : processDocument cfg st req docId ts sz ct = some (r, st1))
    (hs : storageSaved r.body = some true) :
    getDocument st1 docId = ⟨200, r.body.removeField ("storage")⟩ := by
  unfold processDocument at hp
  cases hres : resolveContent req with
  | crash =>
    rw [hres] at hp
    exact absurd hp (by simp)
  | noFile =>
    rw [hres] at hp
    simp at hp
    obtain ⟨h1, h2⟩ := hp
    subst h1
    exact absurd hs (by decide)
  | ok content filename =>
    rw [hres] at hp
    by_cases hbig : utf8Len content > cfg.maxDocumentSizeMB * 1048576
    · simp [hbig] at hp
      obtain ⟨h1, h2⟩ := hp
      subst h1
      simp [storageSaved, Json.mkObj, Json.getField] at hs
    · cases hav : st.available with
      | false =>
        simp [hav, hbig] at hp
        obtain ⟨h1, h2⟩ := hp
        subst h1
        have hsv : storageSaved ((mkResult cfg content filename docId ts).addField ("storage")
            (Json.mkObj [(("saved"), Json.bool false),
              (("reason"), Json.str ("Storage not available"))])) = some false := rfl
        rw [hsv] at hs
        exact absurd hs (by simp)
      | true =>
        cases hwf : st.writeFails with
        | some msg =>
          simp [hav, hwf, hbig] at hp
          obtain ⟨h1, h2⟩ := hp
          subst h1
          have hsv : storageSaved ((mkResult cfg content filename docId ts).addField ("storage")
              (Json.mkObj [(("saved"), Json.bool false),
                (("error"), Json.str msg)])) = some false := rfl
          rw [hsv] at hs
          exact absurd hs (by simp)
        | none =>
          simp [hav, hwf, hbig] at hp
          obtain ⟨h1, h2⟩ := hp
          subst h1
          subst h2
          unfold getDocument
          simp [alistLookup]
          rfl

/-- C1 amended witness: the concrete saved document of the counterexample
is returned without the storage field. -/
theorem c1_roundtrip_without_storage_field_witness :
    getDocument c1st1 ("d1") = ⟨200, c1resp.removeField ("storage")⟩ :=
  c1_roundtrip_without_storage_field cfg0 st0 rawReq0 ("d1") ts0 100 ts0
    ⟨200, c1resp⟩ c1st1 (by decide) (by decide)

/-- C3 fails on the code: list_documents derives the document id with
str.replace, which removes every occurrence of .json, not only the
trailing suffix.  The file named a.json.json is listed with document id
a, and no entry carries the suffix-stripped id a.json. -/
theorem c3_counterexample :
    pyEndsWith ("a.json.json") (".json") = true ∧
    listDocuments c3st =
      ⟨200, Json.mkObj [(("documents"), Json.mkArr [Json.mkObj [
        (("document_id"), Json.str ("a")),
        (("size_bytes"), Json.ofNat 5),
        (("created_at"), Json.str ("t1"))]]),
        (("count"), Json.ofNat 1)]⟩ ∧
    Json.arrMemB (Json.mkObj [(("document_id"), Json.str ("a.json")),
        (("size_bytes"), Json.ofNat 5), (("created_at"), Json.str ("t1"))])
      (((listDocuments c3st).body.getField ("documents")).getD Json.null) = false := by
  refine ⟨by decide, by decide, by decide⟩

/-- C3 amended: every stored file with the .json suffix is reported with
a document id equal to its name with every occurrence of .json removed
(which coincides with stripping the trailing suffix whenever .json occurs
only as the suffix). -/
theorem c3_list_ids_replace_all (st : Storage) (name : String) (e : FileEntry)
    (hmem : (name, e) ∈ st.files) (hsuf : pyEndsWith name (".json") = true)
    (hav : st.available = true) (hlf : st.listFails = none) :
    Json.arrMemB (listEntry name e)
      (((listDocuments st).body.getField ("documents")).getD Json.null) = true := by
  have hbody : ((listDocuments st).body.getField ("documents")).getD Json.null =
      Json.mkArr ((st.files.filter (fun p => pyEndsWith p.1 (".json"))).map
        (fun p => listEntry p.1 p.2)) := by
    unfold listDocuments
    rw [hav, hlf]
    rfl
  rw [hbody, arrMemB_mkArr]
  exact List.mem_map_of_mem _ (List.mem_filter.mpr ⟨hmem, hsuf⟩)

/-- C3 amended witness: the doubly suffixed file of the counterexample is
listed under its replace-derived id. -/
theorem c3_list_ids_replace_all_witness :
    Json.arrMemB (listEntry ("a.json.json") ⟨FileData.good Json.null, 5, ("t1")⟩)
      (((listDocuments c3st).body.getField ("documents")).getD Json.null) = true :=
  c3_list_ids_replace_all c3st ("a.json.json") ⟨FileData.good Json.null, 5, ("t1")⟩
    (by decide) (by decide) (by decide) (by decide)

/-- C9: a POST /process request that is neither JSON nor a file upload
resolves its content by decoding the raw body as UTF-8 with invalid
sequences dropped, substituting the sample text when the decoded body is
empty, and its filename is document.txt. -/
theorem c9_raw_body (req : HttpRequest)
    (hjson : req.isJson = false) (hfiles : req.files = []) :
    resolveContent req =
      Resolution.ok
        (if (utf8DecodeIgnore req.rawBody).data.isEmpty then ("Sample document")
          else utf8DecodeIgnore req.rawBody)
        (Json.str ("document.txt")) := by
  unfold resolveContent
  rw [hjson, hfiles]
  simp

/-- C9 witness: a raw body of invalid bytes followed by ascii decodes to
the ascii text; the all-invalid body decodes to empty and is replaced by
the sample text. -/
theorem c9_raw_body_witness :
    resolveContent ⟨false, none, [], [0xFF, 0x68, 0x69]⟩ =
      Resolution.ok ("hi") (Json.str ("document.txt")) ∧
    resolveContent ⟨false, none, [], [0xFF]⟩ =
      Resolution.ok ("Sample document") (Json.str ("document.txt")) := by
  constructor
  · have h := c9_raw_body ⟨false, none, [], [0xFF, 0x68, 0x69]⟩ (by decide) (by decide)
    rw [h]
    decide
  · have h := c9_raw_body ⟨false, none, [], [0xFF]⟩ (by decide) (by decide)
    rw [h]
    decide
